import Mathlib

/-!
# Verification of the tile-based level core (collision, level entity, goal)

Shallow embedding of the core of the `web-2d-game` repository:

* `src/constants.js` — `TILE_SIZE`.
* `src/collision.js` — `detectCollision` (argument validation and the
  inclusive floored tile-range scan).
* `src/level.js` — the `Level` class: constructor (goal bounds check and
  collision-grid construction), `isSolid`, `getGoalPosition`, `checkGoal`
  (strict AABB overlap with the one-shot `levelComplete` emission).

World-space AABB coordinates are JavaScript numbers; finite values are
embedded as rationals (`ℚ`).  Tile coordinates and tile IDs are integers.
-/

namespace Game2D

/-- `TILE_SIZE` from `src/constants.js` (integer form, for tile math). -/
def TILE_SIZE : ℤ := 32

/-- `TILE_SIZE` as a rational, for world-space arithmetic. -/
def TILE_SIZE_Q : ℚ := 32

/-- A world-space AABB with finite numeric fields, as consumed by
`detectCollision` and `checkGoal`: `{x, y, width, height}`. -/
structure Rect where
  x : ℚ
  y : ℚ
  width : ℚ
  height : ℚ
  deriving Repr, DecidableEq

/-- The list of integers `[a, a+1, ..., b]` (empty when `b < a`): the index
sequence of the JavaScript loop `for (let t = a; t <= b; t++)`. -/
def intRange (a b : ℤ) : List ℤ :=
  (List.range (b + 1 - a).toNat).map fun i : ℕ => a + (i : ℤ)

/-- The tile-range scan of `detectCollision` (`src/collision.js` lines
29–44), for a duck-typed level exposing `isSolid` and a `playerRect` with
finite numeric fields: floor the four corners down to tile indices and
return `true` iff some enumerated tile is solid (the `List.any` early-exit
matches the source's early `return true`). -/
def detectCollision (playerRect : Rect) (isSolid : ℤ → ℤ → Bool) : Bool :=
  let startX := ⌊playerRect.x / TILE_SIZE_Q⌋
  let startY := ⌊playerRect.y / TILE_SIZE_Q⌋
  let endX := ⌊(playerRect.x + playerRect.width) / TILE_SIZE_Q⌋
  let endY := ⌊(playerRect.y + playerRect.height) / TILE_SIZE_Q⌋
  (intRange startY endY).any fun ty =>
    (intRange startX endX).any fun tx => isSolid tx ty

/-- A parsed level document (wire format of `docs/level_format.md`):
`width`, `height`, row-major `tiles`, the `collision` tile-ID array and the
`goal` coordinate. -/
structure LevelDoc where
  width : ℤ
  height : ℤ
  tiles : List (List ℤ)
  collision : List ℤ
  goalX : ℤ
  goalY : ℤ
  deriving Repr, DecidableEq

/-- Modelled from the spec: the schema file `src/schemas/levelSchema.json`
is not in the repository snapshot, so the structural contract is taken from
§4.1 of the specification: `width, height` integers `≥ 1`; `tiles` an array
of `height` rows, each of `width` integer entries; `collision` an integer
array (may be empty); `goal` integer coordinates.  Integerness is carried by
the types of `LevelDoc`. -/
def schemaValid (d : LevelDoc) : Bool :=
  (1 ≤ d.width) && (1 ≤ d.height) &&
  (d.tiles.length = d.height.toNat : Bool) &&
  d.tiles.all fun row => (row.length = d.width.toNat : Bool)

/-- The collision-grid construction loop of the `Level` constructor
(`src/level.js` lines 52–60): a `height × width` boolean matrix with
`grid[y][x] = collisionTileIds.has(tiles[y][x])`.  `Set.has` on integers is
list membership of the `collision` array. -/
def buildGrid (tiles : List (List ℤ)) (collision : List ℤ)
    (width height : ℤ) : List (List Bool) :=
  (List.range height.toNat).map fun y =>
    (List.range width.toNat).map fun x =>
      collision.contains ((tiles.getD y []).getD x 0)

/-- The runtime `Level` entity (`src/level.js`): copied `width`, `height`,
retained `tiles`, the solid-tile-ID set, the goal coordinate, the derived
collision grid and the `_goalReached` flag (unset in the constructor, hence
falsy: embedded as `false`). -/
structure Level where
  width : ℤ
  height : ℤ
  tiles : List (List ℤ)
  collisionTileIds : List ℤ
  goalX : ℤ
  goalY : ℤ
  collisionGrid : List (List Bool)
  goalReached : Bool
  deriving Repr, DecidableEq

/-- The `Level` constructor (`src/level.js` lines 32–64) on a document that
already passed schema validation: fail with the goal-bounds error when the
goal lies outside `[0,width) × [0,height)`, otherwise produce the entity
with the derived collision grid.  A JavaScript constructor that throws
produces no object, so failure is `Except.error`. -/
def buildLevel (d : LevelDoc) : Except String Level :=
  if d.goalX < 0 ∨ d.goalY < 0 ∨ d.goalX ≥ d.width ∨ d.goalY ≥ d.height then
    .error "Goal position out of bounds"
  else
    .ok { width := d.width
          height := d.height
          tiles := d.tiles
          collisionTileIds := d.collision
          goalX := d.goalX
          goalY := d.goalY
          collisionGrid := buildGrid d.tiles d.collision d.width d.height
          goalReached := false }

/-- `Level.isSolid` (`src/level.js` lines 96–101): out-of-bounds
coordinates are non-solid, in-bounds coordinates read the collision grid. -/
def isSolid (lvl : Level) (x y : ℤ) : Bool :=
  if x < 0 ∨ y < 0 ∨ x ≥ lvl.width ∨ y ≥ lvl.height then
    false
  else
    (lvl.collisionGrid.getD y.toNat []).getD x.toNat false

/-- `Level.getGoalPosition` (`src/level.js`): the goal coordinate pair. -/
def getGoalPosition (lvl : Level) : ℤ × ℤ :=
  (lvl.goalX, lvl.goalY)

/-- The strict AABB overlap test of `Level.checkGoal` (`src/level.js` lines
127–132) between `playerRect` and the goal tile's world rectangle
`(gx·TILE_SIZE, gy·TILE_SIZE, TILE_SIZE, TILE_SIZE)`. -/
def goalOverlap (gx gy : ℤ) (r : Rect) : Bool :=
  let goalWorldX : ℚ := (gx : ℚ) * TILE_SIZE_Q
  let goalWorldY : ℚ := (gy : ℚ) * TILE_SIZE_Q
  (r.x < goalWorldX + TILE_SIZE_Q) && (r.x + r.width > goalWorldX) &&
  (r.y < goalWorldY + TILE_SIZE_Q) && (r.y + r.height > goalWorldY)

/-- `Level.checkGoal` (`src/level.js` lines 117–138) as a state
transition: returns the updated level, the overlap boolean the call
returns, and whether this call emitted the `levelComplete` event. -/
def checkGoal (lvl : Level) (r : Rect) : Level × Bool × Bool :=
  let overlap := goalOverlap lvl.goalX lvl.goalY r
  if overlap && !lvl.goalReached then
    ({ lvl with goalReached := true }, overlap, true)
  else
    (lvl, overlap, false)

/-- A sequence of `checkGoal` calls on one level: the final level state paired
with the per-call `(returned overlap, emitted)` trace. -/
def runCheckGoals (lvl : Level) : List Rect → Level × List (Bool × Bool)
  | [] => (lvl, [])
  | r :: rs =>
    let s := checkGoal lvl r
    let rest := runCheckGoals s.1 rs
    (rest.1, s.2 :: rest.2)

/-! ## Argument validation of `detectCollision` (JavaScript value model)

The guards at `src/collision.js` lines 16–27 test `typeof field === 'number'`
on the four rectangle fields and that `level.isSolid` is a function.  In
JavaScript, `NaN` and `±Infinity` have `typeof` `'number'`, so they pass the
guard; a missing field reads as `undefined` and fails it. -/

/-- A JavaScript value as it can appear in a rectangle field: a finite
number, `NaN`, `Infinity`, `-Infinity`, or a non-number (e.g. `undefined`
for a missing field). -/
inductive JSVal where
  | num (q : ℚ)
  | nan
  | posInf
  | negInf
  | undef
  deriving Repr, DecidableEq

/-- `typeof v === 'number'`: true for every numeric value, including `NaN`
and the infinities. -/
def isNumberType : JSVal → Bool
  | .undef => false
  | _ => true

/-- A `playerRect` argument whose fields are arbitrary JavaScript values. -/
structure JSRect where
  x : JSVal
  y : JSVal
  width : JSVal
  height : JSVal
  deriving Repr, DecidableEq

/-- The guard of `detectCollision` on the rectangle: all four fields must
have `typeof` `'number'`. -/
def rectFieldsNumeric (r : JSRect) : Bool :=
  isNumberType r.x && isNumberType r.y && isNumberType r.width && isNumberType r.height

/-- The validation prologue of `detectCollision` (`src/collision.js` lines
16–27): the thrown error message, or `none` when execution reaches the tile
scan.  `playerRect = none` models a null/undefined argument;
`levelHasIsSolid` is whether the `level` argument exposes a callable
`isSolid`. -/
def detectCollisionThrows (playerRect : Option JSRect) (levelHasIsSolid : Bool) :
    Option String :=
  match playerRect with
  | none => some "Invalid playerRect supplied to detectCollision"
  | some r =>
    if !rectFieldsNumeric r then
      some "Invalid playerRect supplied to detectCollision"
    else if !levelHasIsSolid then
      some "Invalid level object supplied to detectCollision"
    else
      none

/-- A finite-or-`NaN` JavaScript number: `none` is `NaN`. -/
abbrev QNan := Option ℚ

/-- JavaScript `+` on finite-or-`NaN` numbers: `NaN` propagates. -/
def qnanAdd : QNan → QNan → QNan
  | some a, some b => some (a + b)
  | _, _ => none

/-- `Math.floor(v / TILE_SIZE)` on a finite-or-`NaN` number: `NaN / 32` is
`NaN` and `Math.floor(NaN)` is `NaN`. -/
def qnanFloorDiv : QNan → Option ℤ
  | some q => some ⌊q / TILE_SIZE_Q⌋
  | none => none

/-- The index list of `for (let t = a; t <= b; t++)` with floored bounds
that may be `NaN`: every comparison against `NaN` is false, so a `NaN`
bound yields zero iterations. -/
def qnanRange : Option ℤ → Option ℤ → List ℤ
  | some a, some b => intRange a b
  | _, _ => []

/-- The tile scan of `detectCollision` (`src/collision.js` lines 29–44) for
a `playerRect` whose fields are finite numbers or `NaN` (a field that is
`±Infinity` makes the source loop bounds infinite, so such calls are
outside this model). -/
def detectCollisionQnan (x y width height : QNan) (isSolid : ℤ → ℤ → Bool) : Bool :=
  let startX := qnanFloorDiv x
  let startY := qnanFloorDiv y
  let endX := qnanFloorDiv (qnanAdd x width)
  let endY := qnanFloorDiv (qnanAdd y height)
  (qnanRange startY endY).any fun ty =>
    (qnanRange startX endX).any fun tx => isSolid tx ty

/-! ## State-passing form of `detectCollision` (for the frame property)

`detectCollision` only reads its arguments: the body contains no assignment
to `playerRect`, to `level`, or to any of their properties, and the only
`level` operation it performs is calling `isSolid`, whose body
(`src/level.js` lines 96–101) is also assignment-free.  The state-passing
embedding threads the `Level` value through every `isSolid` call and
returns the final rectangle and level alongside the boolean result. -/

/-- `Level.isSolid` as a state transformer: returns its answer and the
(unchanged) level object. -/
def isSolidS (lvl : Level) (x y : ℤ) : Bool × Level :=
  (isSolid lvl x y, lvl)

/-- The inner `tx` loop of `detectCollision`, threading the level state and
exiting early on the first solid tile. -/
def scanRowS : Level → ℤ → List ℤ → Bool × Level
  | lvl, _, [] => (false, lvl)
  | lvl, ty, tx :: rest =>
    let s := isSolidS lvl tx ty
    if s.1 then (true, s.2) else scanRowS s.2 ty rest

/-- The outer `ty` loop of `detectCollision`, threading the level state. -/
def scanRowsS : Level → List ℤ → List ℤ → Bool × Level
  | lvl, [], _ => (false, lvl)
  | lvl, ty :: rest, txs =>
    let s := scanRowS lvl ty txs
    if s.1 then (true, s.2) else scanRowsS s.2 rest txs

/-- `detectCollision` in state-passing form: the boolean result together
with the rectangle and level as they stand after the call. -/
def detectCollisionS (playerRect : Rect) (lvl : Level) : Bool × Rect × Level :=
  let startX := ⌊playerRect.x / TILE_SIZE_Q⌋
  let startY := ⌊playerRect.y / TILE_SIZE_Q⌋
  let endX := ⌊(playerRect.x + playerRect.width) / TILE_SIZE_Q⌋
  let endY := ⌊(playerRect.y + playerRect.height) / TILE_SIZE_Q⌋
  let s := scanRowsS lvl (intRange startY endY) (intRange startX endX)
  (s.1, playerRect, s.2)

/-! ## Heap model of tile-matrix sharing (for the construction frame claim)

`this.tiles = rawData.tiles` (`src/level.js` line 35) stores a *reference*
to the document's tile matrix, so the matrix lives in a mutable store
shared between the document and the Level.  The collision grid is freshly
allocated by the constructor (`new Array` at lines 52–55) and holds
booleans, so no reference reachable from the document can alias it; it is
therefore held by value in the entity, as are the primitive `width` and
`height`. -/

/-- A store of tile matrices, addressed by reference index. -/
abbrev TilesHeap := List (List (List ℤ))

/-- Dereference a tile matrix. -/
def readTiles (h : TilesHeap) (ref : ℕ) : List (List ℤ) :=
  h.getD ref []

/-- `doc.tiles[row][col] = v`: mutate one entry of the matrix at `ref`. -/
def writeTile (h : TilesHeap) (ref row col : ℕ) (v : ℤ) : TilesHeap :=
  h.set ref ((h.getD ref []).set row (((h.getD ref []).getD row []).set col v))

/-- A level document whose `tiles` field is a reference into a
`TilesHeap`. -/
structure LevelDocRef where
  width : ℤ
  height : ℤ
  tilesRef : ℕ
  collision : List ℤ
  goalX : ℤ
  goalY : ℤ
  deriving Repr, DecidableEq

/-- The runtime `Level` in the heap model: `tiles` is the retained
reference, the collision grid is the freshly built boolean matrix. -/
structure LevelRef where
  width : ℤ
  height : ℤ
  tilesRef : ℕ
  collisionTileIds : List ℤ
  goalX : ℤ
  goalY : ℤ
  collisionGrid : List (List Bool)
  goalReached : Bool
  deriving Repr, DecidableEq

/-- The `Level` constructor in the heap model: identical logic to
`buildLevel`, but `tiles` is retained by reference and the grid is built
from the matrix the document references at construction time. -/
def buildLevelRef (h : TilesHeap) (d : LevelDocRef) : Except String LevelRef :=
  if d.goalX < 0 ∨ d.goalY < 0 ∨ d.goalX ≥ d.width ∨ d.goalY ≥ d.height then
    .error "Goal position out of bounds"
  else
    .ok { width := d.width
          height := d.height
          tilesRef := d.tilesRef
          collisionTileIds := d.collision
          goalX := d.goalX
          goalY := d.goalY
          collisionGrid := buildGrid (readTiles h d.tilesRef) d.collision d.width d.height
          goalReached := false }

/-- The Level's `tiles` observable: what reading `level.tiles` yields under
the current heap. -/
def levelTilesObs (h : TilesHeap) (lvl : LevelRef) : List (List ℤ) :=
  readTiles h lvl.tilesRef

/-- `Level.isSolid` in the heap model: reads only the by-value collision
grid (`src/level.js` lines 96–101 touch no tile matrix). -/
def isSolidRef (lvl : LevelRef) (x y : ℤ) : Bool :=
  if x < 0 ∨ y < 0 ∨ x ≥ lvl.width ∨ y ≥ lvl.height then
    false
  else
    (lvl.collisionGrid.getD y.toNat []).getD x.toNat false

/-- `Level.getGoalPosition` in the heap model. -/
def getGoalPositionRef (lvl : LevelRef) : ℤ × ℤ :=
  (lvl.goalX, lvl.goalY)

/-! ## Sample data (the level of `src/tests/levelLoader.test.js`) -/

/-- The valid document used by the repository's loader tests: 4×3, solid
IDs `{1, 2}`, goal `(3, 2)`. -/
def sampleDoc : LevelDoc :=
  { width := 4
    height := 3
    tiles := [[0, 1, 0, 2], [0, 0, 2, 2], [1, 1, 0, 0]]
    collision := [1, 2]
    goalX := 3
    goalY := 2 }

/-- The entity `buildLevel sampleDoc` constructs. -/
def sampleLevel : Level :=
  { width := 4
    height := 3
    tiles := [[0, 1, 0, 2], [0, 0, 2, 2], [1, 1, 0, 0]]
    collisionTileIds := [1, 2]
    goalX := 3
    goalY := 2
    collisionGrid := [[false, true, false, true],
                      [false, false, true, true],
                      [true, true, false, false]]
    goalReached := false }

/-- A 2×1 document with goal `(1, 0)` and no solid tiles, used to compare
`checkGoal` with the tile-range collision algorithm. -/
def goalDoc : LevelDoc :=
  { width := 2
    height := 1
    tiles := [[0, 0]]
    collision := []
    goalX := 1
    goalY := 0 }

/-- The entity `buildLevel goalDoc` constructs. -/
def goalLevel : Level :=
  { width := 2
    height := 1
    tiles := [[0, 0]]
    collisionTileIds := []
    goalX := 1
    goalY := 0
    collisionGrid := [[false, false]]
    goalReached := false }

/-- A unit rectangle sitting exactly on the tile to the left of `goalLevel`'s
goal tile: its right edge touches the goal tile's left edge at `x = 32`. -/
def touchRect : Rect :=
  { x := 0, y := 0, width := 32, height := 32 }

/-- A small rectangle strictly inside `goalLevel`'s goal tile (world rect
`[32, 64) × [0, 32)`). -/
def hitRect : Rect :=
  { x := 40, y := 0, width := 8, height := 8 }

/-- The heap holding the 1×1 tile matrix of `heapDoc` at reference `0`. -/
def sampleHeap : TilesHeap := [[[0]]]

/-- A 1×1 document over `sampleHeap`, goal `(0, 0)`, no solid IDs. -/
def heapDoc : LevelDocRef :=
  { width := 1
    height := 1
    tilesRef := 0
    collision := []
    goalX := 0
    goalY := 0 }

/-- The entity `buildLevelRef sampleHeap heapDoc` constructs. -/
def heapLevel : LevelRef :=
  { width := 1
    height := 1
    tilesRef := 0
    collisionTileIds := []
    goalX := 0
    goalY := 0
    collisionGrid := [[false]]
    goalReached := false }

/-! ## Helper lemmas -/

theorem mem_intRange {a b z : ℤ} : z ∈ intRange a b ↔ a ≤ z ∧ z ≤ b := by
  rw [intRange, List.mem_map]
  constructor
  · rintro ⟨i, hi, rfl⟩
    rw [List.mem_range] at hi
    omega
  · rintro ⟨h1, h2⟩
    refine ⟨(z - a).toNat, ?_, ?_⟩
    · rw [List.mem_range]
      omega
    · omega

theorem any_intRange_eq_true {a b : ℤ} {p : ℤ → Bool} :
    (intRange a b).any p = true ↔ ∃ z : ℤ, a ≤ z ∧ z ≤ b ∧ p z = true := by
  rw [List.any_eq_true]
  constructor
  · rintro ⟨z, hz, hp⟩
    exact ⟨z, (mem_intRange.mp hz).1, (mem_intRange.mp hz).2, hp⟩
  · rintro ⟨z, h1, h2, hp⟩
    exact ⟨z, mem_intRange.mpr ⟨h1, h2⟩, hp⟩

theorem getD_range_map {α : Type _} (n : ℕ) (f : ℕ → α) (d : α) (i : ℕ) (h : i < n) :
    ((List.range n).map f).getD i d = f i := by
  rw [List.getD_eq_getElem ((List.range n).map f) d (by simpa using h)]
  rw [List.getElem_map, List.getElem_range]

theorem buildGrid_length (tiles : List (List ℤ)) (collision : List ℤ) (w h : ℤ) :
    (buildGrid tiles collision w h).length = h.toNat := by
  simp [buildGrid]

theorem buildGrid_row_length (tiles : List (List ℤ)) (collision : List ℤ) (w h : ℤ) :
    ∀ row ∈ buildGrid tiles collision w h, row.length = w.toNat := by
  intro row hrow
  obtain ⟨y, _, rfl⟩ := List.mem_map.mp hrow
  simp

theorem buildGrid_value (tiles : List (List ℤ)) (collision : List ℤ) (w h : ℤ)
    (x y : ℕ) (hx : x < w.toNat) (hy : y < h.toNat) :
    ((buildGrid tiles collision w h).getD y []).getD x false
      = collision.contains ((tiles.getD y []).getD x 0) := by
  rw [buildGrid, getD_range_map _ _ _ _ hy, getD_range_map _ _ _ _ hx]

theorem getD_getD_eq_get_get (l : List (List Bool)) (y x : ℕ) (hy : y < l.length)
    (hx : x < (l.get ⟨y, hy⟩).length) :
    (l.getD y []).getD x false = (l.get ⟨y, hy⟩).get ⟨x, hx⟩ := by
  rw [List.getD_eq_getElem l [] hy]
  rw [List.getD_eq_getElem _ false (by simpa [List.get_eq_getElem] using hx)]
  simp [List.get_eq_getElem]

theorem buildLevel_ok_inv {d : LevelDoc} {lvl : Level}
    (hb : buildLevel d = Except.ok lvl) :
    lvl.width = d.width ∧ lvl.height = d.height ∧ lvl.tiles = d.tiles ∧
    lvl.collisionTileIds = d.collision ∧ lvl.goalX = d.goalX ∧ lvl.goalY = d.goalY ∧
    lvl.collisionGrid = buildGrid d.tiles d.collision d.width d.height ∧
    lvl.goalReached = false ∧
    ¬(d.goalX < 0 ∨ d.goalY < 0 ∨ d.goalX ≥ d.width ∨ d.goalY ≥ d.height) := by
  rw [buildLevel] at hb
  split at hb
  · exact absurd hb (by simp)
  · cases hb
    refine ⟨rfl, rfl, rfl, rfl, rfl, rfl, rfl, rfl, ?_⟩
    assumption

theorem detectCollision_eq_true_iff (playerRect : Rect) (isSolid : ℤ → ℤ → Bool) :
    detectCollision playerRect isSolid = true ↔
      ∃ tx ty : ℤ,
        ⌊playerRect.x / TILE_SIZE_Q⌋ ≤ tx ∧
        tx ≤ ⌊(playerRect.x + playerRect.width) / TILE_SIZE_Q⌋ ∧
        ⌊playerRect.y / TILE_SIZE_Q⌋ ≤ ty ∧
        ty ≤ ⌊(playerRect.y + playerRect.height) / TILE_SIZE_Q⌋ ∧
        isSolid tx ty = true := by
  rw [detectCollision, any_intRange_eq_true]
  constructor
  · rintro ⟨ty, hy1, hy2, hrow⟩
    obtain ⟨tx, hx1, hx2, hp⟩ := any_intRange_eq_true.mp hrow
    exact ⟨tx, ty, hx1, hx2, hy1, hy2, hp⟩
  · rintro ⟨tx, ty, hx1, hx2, hy1, hy2, hp⟩
    exact ⟨ty, hy1, hy2, any_intRange_eq_true.mpr ⟨tx, hx1, hx2, hp⟩⟩

/-- C1: `detectCollision(playerRect, level)` returns `true` iff some tile
index pair `(tx, ty)` in the inclusive range
`[⌊x/TILE_SIZE⌋, ⌊(x+width)/TILE_SIZE⌋] × [⌊y/TILE_SIZE⌋, ⌊(y+height)/TILE_SIZE⌋]`
is solid according to the level's `isSolid`, for every level object exposing
`isSolid` and every rectangle with finite numeric fields (`TILE_SIZE = 32`). -/
theorem detectCollision_iff_solid_in_range (playerRect : Rect) (isSolid : ℤ → ℤ → Bool) :
    detectCollision playerRect isSolid = true ↔
      ∃ tx ty : ℤ,
        ⌊playerRect.x / TILE_SIZE_Q⌋ ≤ tx ∧
        tx ≤ ⌊(playerRect.x + playerRect.width) / TILE_SIZE_Q⌋ ∧
        ⌊playerRect.y / TILE_SIZE_Q⌋ ≤ ty ∧
        ty ≤ ⌊(playerRect.y + playerRect.height) / TILE_SIZE_Q⌋ ∧
        isSolid tx ty = true :=
  detectCollision_eq_true_iff playerRect isSolid

/-- C2: for every successfully constructed Level, the collision grid has
exactly `height` rows of exactly `width` entries each, and every in-bounds
cell `(x, y)` holds the membership of `tiles[y][x]` in the set built from
the document's `collision` array. -/
theorem collisionGrid_matches_document (d : LevelDoc) (lvl : Level)
    (hs : schemaValid d = true) (hb : buildLevel d = Except.ok lvl) :
    lvl.collisionGrid.length = d.height.toNat ∧
    (∀ row ∈ lvl.collisionGrid, row.length = d.width.toNat) ∧
    ∀ x y : ℕ, x < d.width.toNat → y < d.height.toNat →
      (lvl.collisionGrid.getD y []).getD x false
        = d.collision.contains ((d.tiles.getD y []).getD x 0) := by
  obtain ⟨-, -, -, -, -, -, hgrid, -, -⟩ := buildLevel_ok_inv hb
  rw [hgrid]
  exact ⟨buildGrid_length _ _ _ _, buildGrid_row_length _ _ _ _,
    fun x y hx hy => buildGrid_value _ _ _ _ x y hx hy⟩

theorem collisionGrid_matches_document_witness :
    schemaValid sampleDoc = true ∧ buildLevel sampleDoc = Except.ok sampleLevel ∧
    (sampleLevel.collisionGrid.getD 0 []).getD 1 false
      = sampleDoc.collision.contains ((sampleDoc.tiles.getD 0 []).getD 1 0) :=
  ⟨by decide, by rfl,
    (collisionGrid_matches_document sampleDoc sampleLevel (by decide) (by rfl)).2.2
      1 0 (by decide) (by decide)⟩

/-- C3: for every constructed Level, `isSolid(x, y)` returns `false` for
every out-of-bounds coordinate pair (and never throws: the embedding is a
total function), and returns the stored collision-grid entry
`collisionGrid[y][x]` for every in-bounds integer coordinate pair. -/
theorem isSolid_spec (d : LevelDoc) (lvl : Level)
    (hs : schemaValid d = true) (hb : buildLevel d = Except.ok lvl) (x y : ℤ) :
    ((x < 0 ∨ y < 0 ∨ x ≥ lvl.width ∨ y ≥ lvl.height) → isSolid lvl x y = false) ∧
    (0 ≤ x → 0 ≤ y → x < lvl.width → y < lvl.height →
      ∃ (hy : y.toNat < lvl.collisionGrid.length)
        (hx : x.toNat < (lvl.collisionGrid.get ⟨y.toNat, hy⟩).length),
        isSolid lvl x y = (lvl.collisionGrid.get ⟨y.toNat, hy⟩).get ⟨x.toNat, hx⟩) := by
  constructor
  · intro h
    rw [isSolid, if_pos h]
  · intro hx0 hy0 hxw hyh
    obtain ⟨hw, hh, -, -, -, -, hgrid, -, -⟩ := buildLevel_ok_inv hb
    have hylen : y.toNat < lvl.collisionGrid.length := by
      rw [hgrid, buildGrid_length]
      omega
    have hget_row : lvl.collisionGrid.get ⟨y.toNat, hylen⟩
        = lvl.collisionGrid.getD y.toNat [] := by
      rw [List.getD_eq_getElem lvl.collisionGrid [] hylen]
      simp [List.get_eq_getElem]
    have hrowD : lvl.collisionGrid.getD y.toNat []
        = (List.range d.width.toNat).map
            (fun x : ℕ => d.collision.contains ((d.tiles.getD y.toNat []).getD x 0)) := by
      rw [hgrid, buildGrid]
      exact getD_range_map _ _ _ _ (by omega)
    have hxlen : x.toNat < (lvl.collisionGrid.get ⟨y.toNat, hylen⟩).length := by
      rw [hget_row, hrowD]
      simp only [List.length_map, List.length_range]
      omega
    refine ⟨hylen, hxlen, ?_⟩
    rw [isSolid, if_neg (by omega)]
    exact getD_getD_eq_get_get lvl.collisionGrid y.toNat x.toNat hylen hxlen

theorem isSolid_spec_witness :
    schemaValid sampleDoc = true ∧ buildLevel sampleDoc = Except.ok sampleLevel ∧
    ((-1 : ℤ) < 0 ∨ (0 : ℤ) < 0 ∨ (-1 : ℤ) ≥ sampleLevel.width ∨
      (0 : ℤ) ≥ sampleLevel.height) ∧
    isSolid sampleLevel (-1) 0 = false :=
  ⟨by decide, by rfl, by decide,
    (isSolid_spec sampleDoc sampleLevel (by decide) (by rfl) (-1) 0).1 (by decide)⟩

/-- C6: for every schema-valid document, construction fails (producing no
Level) iff the goal coordinate lies outside `[0,width) × [0,height)`, and a
successful construction yields a Level whose goal satisfies
`0 ≤ goal.x < width` and `0 ≤ goal.y < height`. -/
theorem buildLevel_bounds_error_iff (d : LevelDoc) (hs : schemaValid d = true) :
    ((∃ e, buildLevel d = Except.error e) ↔
      (d.goalX < 0 ∨ d.goalY < 0 ∨ d.goalX ≥ d.width ∨ d.goalY ≥ d.height)) ∧
    ∀ lvl : Level, buildLevel d = Except.ok lvl →
      0 ≤ lvl.goalX ∧ lvl.goalX < lvl.width ∧ 0 ≤ lvl.goalY ∧ lvl.goalY < lvl.height := by
  constructor
  · rw [buildLevel]
    split
    · exact iff_of_true ⟨_, rfl⟩ (by assumption)
    · exact iff_of_false (by rintro ⟨e, he⟩; cases he) (by assumption)
  · intro lvl hb
    obtain ⟨hw, hh, -, -, hgx, hgy, -, -, hbound⟩ := buildLevel_ok_inv hb
    rw [hw, hh, hgx, hgy]
    omega

theorem buildLevel_bounds_error_iff_witness :
    schemaValid sampleDoc = true ∧
    (0 ≤ sampleLevel.goalX ∧ sampleLevel.goalX < sampleLevel.width ∧
      0 ≤ sampleLevel.goalY ∧ sampleLevel.goalY < sampleLevel.height) :=
  ⟨by decide,
    (buildLevel_bounds_error_iff sampleDoc (by decide)).2 sampleLevel (by rfl)⟩

theorem goalOverlap_eq_true_iff (gx gy : ℤ) (r : Rect) :
    goalOverlap gx gy r = true ↔
      (r.x < (gx : ℚ) * TILE_SIZE_Q + TILE_SIZE_Q ∧
       r.x + r.width > (gx : ℚ) * TILE_SIZE_Q ∧
       r.y < (gy : ℚ) * TILE_SIZE_Q + TILE_SIZE_Q ∧
       r.y + r.height > (gy : ℚ) * TILE_SIZE_Q) := by
  simp [goalOverlap, and_assoc]

theorem checkGoal_returns_overlap (lvl : Level) (r : Rect) :
    (checkGoal lvl r).2.1 = goalOverlap lvl.goalX lvl.goalY r := by
  rw [checkGoal]
  split <;> rfl

/-- C10: a player rectangle with positive width and height that only
touches the goal tile's world rectangle along an edge (right edge flush
with the tile's left edge, bottom flush with its top, left flush with its
right, or top flush with its bottom) makes `checkGoal` return `false`,
leave `goalReached` unchanged and emit nothing: all four overlap
comparisons are strict. -/
theorem checkGoal_edge_touch_is_false (lvl : Level) (r : Rect)
    (hw : 0 < r.width) (hh : 0 < r.height)
    (hedge : r.x + r.width = (lvl.goalX : ℚ) * TILE_SIZE_Q
      ∨ r.y + r.height = (lvl.goalY : ℚ) * TILE_SIZE_Q
      ∨ r.x = ((lvl.goalX : ℚ) + 1) * TILE_SIZE_Q
      ∨ r.y = ((lvl.goalY : ℚ) + 1) * TILE_SIZE_Q) :
    checkGoal lvl r = (lvl, false, false) := by
  have hov : goalOverlap lvl.goalX lvl.goalY r = false := by
    rw [Bool.eq_false_iff]
    intro hc
    obtain ⟨h1, h2, h3, h4⟩ := (goalOverlap_eq_true_iff _ _ _).mp hc
    rcases hedge with h | h | h | h
    · rw [h] at h2
      exact lt_irrefl _ h2
    · rw [h] at h4
      exact lt_irrefl _ h4
    · rw [h] at h1
      rw [add_mul, one_mul] at h1
      exact lt_irrefl _ h1
    · rw [h] at h3
      rw [add_mul, one_mul] at h3
      exact lt_irrefl _ h3
  rw [checkGoal, hov]
  simp

theorem checkGoal_edge_touch_is_false_witness :
    (0 : ℚ) < touchRect.width ∧ (0 : ℚ) < touchRect.height ∧
    (touchRect.x + touchRect.width = (goalLevel.goalX : ℚ) * TILE_SIZE_Q ∨
      touchRect.y + touchRect.height = (goalLevel.goalY : ℚ) * TILE_SIZE_Q ∨
      touchRect.x = ((goalLevel.goalX : ℚ) + 1) * TILE_SIZE_Q ∨
      touchRect.y = ((goalLevel.goalY : ℚ) + 1) * TILE_SIZE_Q) ∧
    checkGoal goalLevel touchRect = (goalLevel, false, false) :=
  ⟨by norm_num [touchRect], by norm_num [touchRect],
    Or.inl (by norm_num [touchRect, goalLevel, TILE_SIZE_Q]),
    checkGoal_edge_touch_is_false goalLevel touchRect
      (by norm_num [touchRect]) (by norm_num [touchRect])
      (Or.inl (by norm_num [touchRect, goalLevel, TILE_SIZE_Q]))⟩

/-- C5 counterexample: `checkGoal` does not return the same boolean as the
§4.3 inclusive floored-range collision algorithm applied to a level whose
only solid tile is the goal tile.  With goal `(1, 0)` and the rectangle
`(0, 0, 32, 32)` — whose right edge is exactly flush with the goal tile's
left edge — the inclusive range contains the goal tile, so the §4.3
algorithm answers `true`, while `checkGoal`'s strict overlap answers
`false`. -/
theorem checkGoal_ne_range_algorithm :
    buildLevel goalDoc = Except.ok goalLevel ∧
    (0 : ℚ) < touchRect.width ∧ (0 : ℚ) < touchRect.height ∧
    detectCollision touchRect
      (fun tx ty => tx == goalLevel.goalX && ty == goalLevel.goalY) = true ∧
    (checkGoal goalLevel touchRect).2.1 = false := by
  refine ⟨by rfl, by norm_num [touchRect], by norm_num [touchRect], ?_, ?_⟩
  · rw [detectCollision_eq_true_iff]
    refine ⟨1, 0, ?_, ?_, ?_, ?_, ?_⟩
    · norm_num [touchRect, TILE_SIZE_Q]
    · norm_num [touchRect, TILE_SIZE_Q]
    · norm_num [touchRect, TILE_SIZE_Q]
    · norm_num [touchRect, TILE_SIZE_Q]
    · norm_num [goalLevel]
  · rw [checkGoal_returns_overlap, Bool.eq_false_iff]
    intro hc
    obtain ⟨-, h2, -, -⟩ := (goalOverlap_eq_true_iff _ _ _).mp hc
    norm_num [touchRect, goalLevel, TILE_SIZE_Q] at h2

/-- C5 (amended): `checkGoal` returns `true` iff the goal tile's column
satisfies `⌊x/TILE_SIZE⌋ ≤ goal.x` and `goal.x·TILE_SIZE < x + width`, and
likewise for the row — the lower comparisons agree with the §4.3 inclusive
floored range, but the upper ones are strict world-space inequalities, so a
rectangle merely flush with the goal tile's boundary does not count.
Consequently a `true` from `checkGoal` always implies a `true` from the
§4.3 algorithm run against a level whose only solid tile is the goal tile,
but not conversely. -/
theorem checkGoal_strict_characterization (lvl : Level) (r : Rect) :
    ((checkGoal lvl r).2.1 = true ↔
      (⌊r.x / TILE_SIZE_Q⌋ ≤ lvl.goalX ∧
       (lvl.goalX : ℚ) * TILE_SIZE_Q < r.x + r.width ∧
       ⌊r.y / TILE_SIZE_Q⌋ ≤ lvl.goalY ∧
       (lvl.goalY : ℚ) * TILE_SIZE_Q < r.y + r.height)) ∧
    ((checkGoal lvl r).2.1 = true →
      detectCollision r (fun tx ty => tx == lvl.goalX && ty == lvl.goalY) = true) := by
  have h32 : (0 : ℚ) < TILE_SIZE_Q := by norm_num [TILE_SIZE_Q]
  have hchar : (checkGoal lvl r).2.1 = true ↔
      (⌊r.x / TILE_SIZE_Q⌋ ≤ lvl.goalX ∧
       (lvl.goalX : ℚ) * TILE_SIZE_Q < r.x + r.width ∧
       ⌊r.y / TILE_SIZE_Q⌋ ≤ lvl.goalY ∧
       (lvl.goalY : ℚ) * TILE_SIZE_Q < r.y + r.height) := by
    rw [checkGoal_returns_overlap, goalOverlap_eq_true_iff]
    have hx : r.x < (lvl.goalX : ℚ) * TILE_SIZE_Q + TILE_SIZE_Q ↔
        ⌊r.x / TILE_SIZE_Q⌋ ≤ lvl.goalX := by
      constructor
      · intro h
        have : ⌊r.x / TILE_SIZE_Q⌋ < lvl.goalX + 1 := by
          rw [Int.floor_lt, div_lt_iff₀ h32]
          push_cast
          linarith
        omega
      · intro h
        have : ⌊r.x / TILE_SIZE_Q⌋ < lvl.goalX + 1 := by omega
        rw [Int.floor_lt, div_lt_iff₀ h32] at this
        push_cast at this
        linarith
    have hy : r.y < (lvl.goalY : ℚ) * TILE_SIZE_Q + TILE_SIZE_Q ↔
        ⌊r.y / TILE_SIZE_Q⌋ ≤ lvl.goalY := by
      constructor
      · intro h
        have : ⌊r.y / TILE_SIZE_Q⌋ < lvl.goalY + 1 := by
          rw [Int.floor_lt, div_lt_iff₀ h32]
          push_cast
          linarith
        omega
      · intro h
        have : ⌊r.y / TILE_SIZE_Q⌋ < lvl.goalY + 1 := by omega
        rw [Int.floor_lt, div_lt_iff₀ h32] at this
        push_cast at this
        linarith
    rw [hx, hy]
  refine ⟨hchar, ?_⟩
  intro h
  obtain ⟨h1, h2, h3, h4⟩ := hchar.mp h
  rw [detectCollision_eq_true_iff]
  refine ⟨lvl.goalX, lvl.goalY, h1, ?_, h3, ?_, by simp⟩
  · rw [Int.le_floor, le_div_iff h32]
    linarith
  · rw [Int.le_floor, le_div_iff h32]
    linarith

theorem checkGoal_strict_characterization_witness :
    (checkGoal goalLevel hitRect).2.1 = true ∧
    detectCollision hitRect
      (fun tx ty => tx == goalLevel.goalX && ty == goalLevel.goalY) = true := by
  have hov : (checkGoal goalLevel hitRect).2.1 = true := by
    rw [checkGoal_returns_overlap, goalOverlap_eq_true_iff]
    norm_num [goalLevel, hitRect, TILE_SIZE_Q]
  exact ⟨hov, (checkGoal_strict_characterization goalLevel hitRect).2 hov⟩

/-! ### One-shot goal emission (C4) -/

theorem checkGoal_state (lvl : Level) (r : Rect) :
    (checkGoal lvl r).1.goalX = lvl.goalX ∧
    (checkGoal lvl r).1.goalY = lvl.goalY ∧
    (checkGoal lvl r).1.goalReached
        = (lvl.goalReached || goalOverlap lvl.goalX lvl.goalY r) ∧
    (checkGoal lvl r).2.1 = goalOverlap lvl.goalX lvl.goalY r ∧
    (checkGoal lvl r).2.2 = (goalOverlap lvl.goalX lvl.goalY r && !lvl.goalReached) := by
  cases hov : goalOverlap lvl.goalX lvl.goalY r <;>
    cases hr : lvl.goalReached <;>
      simp [checkGoal, hov, hr]

theorem runCheckGoals_length (lvl : Level) (rs : List Rect) :
    (runCheckGoals lvl rs).2.length = rs.length := by
  induction rs generalizing lvl with
  | nil => rfl
  | cons r rs ih => simp [runCheckGoals, ih]

theorem runCheckGoals_goal_fields (lvl : Level) (rs : List Rect) :
    (runCheckGoals lvl rs).1.goalX = lvl.goalX ∧
    (runCheckGoals lvl rs).1.goalY = lvl.goalY ∧
    (runCheckGoals lvl rs).1.goalReached
      = (lvl.goalReached || rs.any fun r => goalOverlap lvl.goalX lvl.goalY r) := by
  induction rs generalizing lvl with
  | nil => simp [runCheckGoals]
  | cons r rs ih =>
    obtain ⟨hx, hy, hr, -, -⟩ := checkGoal_state lvl r
    obtain ⟨ihx, ihy, ihr⟩ := ih (checkGoal lvl r).1
    simp only [runCheckGoals]
    refine ⟨by rw [ihx, hx], by rw [ihy, hy], ?_⟩
    rw [ihr, hr, hx, hy]
    simp [Bool.or_assoc]

theorem bool_shift_or (a b c d : Bool) :
    (a && !(b || c) && !d) = (a && !b && !(c || d)) := by
  cases a <;> cases b <;> cases c <;> cases d <;> rfl

theorem runCheckGoals_get (lvl : Level) (rs : List Rect) (i : ℕ) (hi : i < rs.length) :
    (runCheckGoals lvl rs).2.get ⟨i, (runCheckGoals_length lvl rs).symm ▸ hi⟩ =
      (goalOverlap lvl.goalX lvl.goalY (rs.get ⟨i, hi⟩),
       goalOverlap lvl.goalX lvl.goalY (rs.get ⟨i, hi⟩) && !lvl.goalReached &&
         !((rs.take i).any fun r => goalOverlap lvl.goalX lvl.goalY r)) := by
  induction rs generalizing lvl i with
  | nil => exact absurd hi (by simp)
  | cons r rs ih =>
    cases i with
    | zero =>
      obtain ⟨-, -, -, hov, hem⟩ := checkGoal_state lvl r
      simp only [runCheckGoals, List.get_cons_zero, List.take_zero, List.any_nil,
        Bool.not_false, Bool.and_true]
      rw [Prod.ext_iff]
      exact ⟨hov, hem⟩
    | succ j =>
      obtain ⟨hx, hy, hr, -, -⟩ := checkGoal_state lvl r
      have hj : j < rs.length := by simpa using hi
      have := ih (checkGoal lvl r).1 j hj
      rw [hx, hy] at this
      simp only [runCheckGoals, List.get_cons_succ]
      rw [this]
      simp only [List.take_succ_cons, List.any_cons, List.get_cons_succ]
      rw [Prod.ext_iff]
      refine ⟨rfl, ?_⟩
      rw [hr]
      exact bool_shift_or _ _ _ _

theorem any_eq_false_iff_forall {α : Type _} (l : List α) (p : α → Bool) :
    (l.any p = false) ↔ ∀ x ∈ l, p x = false := by
  simp [List.any_eq_false]

theorem any_eq_true_iff_get {α : Type _} (l : List α) (p : α → Bool) :
    (l.any p = true) ↔ ∃ j : ℕ, ∃ hj : j < l.length, p (l.get ⟨j, hj⟩) = true := by
  rw [List.any_eq_true]
  constructor
  · rintro ⟨x, hx, hp⟩
    obtain ⟨n, hn, rfl⟩ := List.mem_iff_getElem.mp hx
    exact ⟨n, hn, by simpa [List.get_eq_getElem] using hp⟩
  · rintro ⟨j, hj, hp⟩
    exact ⟨l.get ⟨j, hj⟩, List.get_mem _ _ _, hp⟩

theorem take_any_false_iff (p : Rect → Bool) (rs : List Rect) (i : ℕ)
    (hi : i < rs.length) :
    ((rs.take i).any p = false) ↔
      ∀ j (hj : j < i), p (rs.get ⟨j, Nat.lt_trans hj hi⟩) = false := by
  rw [any_eq_false_iff_forall]
  constructor
  · intro h j hj
    have hjt : j < (rs.take i).length := by simp; omega
    have heq : (rs.take i).get ⟨j, hjt⟩ = rs.get ⟨j, Nat.lt_trans hj hi⟩ := by
      simp [List.get_eq_getElem, List.getElem_take]
    rw [← heq]
    exact h _ (List.get_mem _ _ _)
  · intro h x hx
    obtain ⟨n, hn, rfl⟩ := List.mem_iff_getElem.mp hx
    have hn' : n < i := by
      simp only [List.length_take] at hn
      omega
    have heq : (rs.take i)[n] = rs.get ⟨n, Nat.lt_trans hn' hi⟩ := by
      simp [List.get_eq_getElem, List.getElem_take]
    rw [heq]
    exact h n hn'

/-- C4: starting from `goalReached = false`, a sequence of `checkGoal`
calls returns the correct overlap boolean on every call, emits the
`levelComplete` notification exactly on the first call whose overlap test
is true (and on no other call), and the `goalReached` flag ends `true` iff
some call overlapped — it transitions at most once and never resets. -/
theorem checkGoal_one_shot (lvl : Level) (rs : List Rect)
    (h0 : lvl.goalReached = false) (i : ℕ) (hi : i < rs.length) :
    ((runCheckGoals lvl rs).2.get ⟨i, (runCheckGoals_length lvl rs).symm ▸ hi⟩).1
        = goalOverlap lvl.goalX lvl.goalY (rs.get ⟨i, hi⟩) ∧
    (((runCheckGoals lvl rs).2.get ⟨i, (runCheckGoals_length lvl rs).symm ▸ hi⟩).2 = true ↔
      (goalOverlap lvl.goalX lvl.goalY (rs.get ⟨i, hi⟩) = true ∧
       ∀ j (hj : j < i),
         goalOverlap lvl.goalX lvl.goalY (rs.get ⟨j, Nat.lt_trans hj hi⟩) = false)) ∧
    ((runCheckGoals lvl rs).1.goalReached = true ↔
      ∃ j : ℕ, ∃ hj : j < rs.length,
        goalOverlap lvl.goalX lvl.goalY (rs.get ⟨j, hj⟩) = true) := by
  have htr := runCheckGoals_get lvl rs i hi
  refine ⟨?_, ?_, ?_⟩
  · rw [htr]
  · rw [htr, h0]
    simp only [Bool.not_false, Bool.and_true]
    rw [Bool.and_eq_true, Bool.not_eq_true']
    rw [take_any_false_iff _ _ _ hi]
  · obtain ⟨-, -, hfin⟩ := runCheckGoals_goal_fields lvl rs
    rw [hfin, h0, Bool.false_or, any_eq_true_iff_get]

theorem checkGoal_one_shot_witness :
    goalLevel.goalReached = false ∧
    (runCheckGoals goalLevel [hitRect, hitRect]).1.goalReached = true :=
  ⟨rfl,
    (checkGoal_one_shot goalLevel [hitRect, hitRect] rfl 0 (by decide)).2.2.mpr
      ⟨0, by decide, by norm_num [goalOverlap, goalLevel, hitRect, TILE_SIZE_Q]⟩⟩

/-! ### Frame property of `detectCollision` (C8) -/

theorem scanRowS_pure (lvl : Level) (ty : ℤ) (txs : List ℤ) :
    scanRowS lvl ty txs = (txs.any fun tx => isSolid lvl tx ty, lvl) := by
  induction txs with
  | nil => rfl
  | cons tx rest ih =>
    rw [scanRowS, isSolidS]
    cases h : isSolid lvl tx ty <;> simp [h, ih]

theorem scanRowsS_pure (lvl : Level) (tys txs : List ℤ) :
    scanRowsS lvl tys txs
      = (tys.any fun ty => txs.any fun tx => isSolid lvl tx ty, lvl) := by
  induction tys with
  | nil => rfl
  | cons ty rest ih =>
    rw [scanRowsS, scanRowS_pure]
    cases h : txs.any fun tx => isSolid lvl tx ty <;> simp [h, ih]

/-- C8: `detectCollision` mutates neither of its inputs: in the
state-passing embedding, which threads the rectangle and the level (with
all its fields: tiles, collision grid, goal, `goalReached`) through the
call including every `isSolid` invocation, both come back bit-identical,
and the boolean returned coincides with the pure embedding. -/
theorem detectCollision_no_mutation (playerRect : Rect) (lvl : Level) :
    (detectCollisionS playerRect lvl).2.1 = playerRect ∧
    (detectCollisionS playerRect lvl).2.2 = lvl ∧
    (detectCollisionS playerRect lvl).1 = detectCollision playerRect (isSolid lvl) := by
  rw [detectCollisionS, scanRowsS_pure]
  exact ⟨rfl, rfl, rfl⟩

/-! ### Argument validation of `detectCollision` (C7) -/

/-- C7 counterexample: a `playerRect` whose `x` field is `NaN` — a
non-finite numeric field — does not make `detectCollision` fail with the
invalid-argument error (its `typeof` is `'number'`, so validation passes),
and the call returns a silent `false` even against a level that reports
every tile solid: the floored `NaN` bounds make every loop comparison
false. -/
theorem detectCollision_nan_silent_false :
    detectCollisionThrows
        (some { x := JSVal.nan, y := JSVal.num 0,
                width := JSVal.num 32, height := JSVal.num 32 }) true = none ∧
    detectCollisionQnan none (some 0) (some 32) (some 32) (fun _ _ => true) = false := by
  constructor
  · rfl
  · rw [detectCollisionQnan]
    simp [qnanAdd, qnanFloorDiv, qnanRange, List.any_eq_false]

/-- C7 (amended): `detectCollision` fails with an invalid-argument error
iff `playerRect` is absent or one of its four fields is not of JavaScript
number type, or the level lacks a callable `isSolid` — the `typeof` check
accepts `NaN` and the infinities, so a non-finite numeric field is *not*
rejected; in particular any call whose rectangle has a `NaN` field returns
`false` instead of failing. -/
theorem detectCollision_error_iff (playerRect : Option JSRect) (levelHasIsSolid : Bool) :
    (detectCollisionThrows playerRect levelHasIsSolid = none ↔
      (∃ r, playerRect = some r ∧ rectFieldsNumeric r = true) ∧ levelHasIsSolid = true) ∧
    ∀ (x y w h : QNan) (isSolid : ℤ → ℤ → Bool),
      (x = none ∨ y = none ∨ w = none ∨ h = none) →
      detectCollisionQnan x y w h isSolid = false := by
  constructor
  · match playerRect with
    | none => simp [detectCollisionThrows]
    | some r =>
      rw [detectCollisionThrows]
      cases hb : rectFieldsNumeric r <;> cases levelHasIsSolid <;> simp [hb]
  · intro x y w h isSolid hnone
    rcases hnone with rfl | rfl | rfl | rfl
    · rw [detectCollisionQnan]
      simp [qnanAdd, qnanFloorDiv, qnanRange, List.any_eq_false]
    · rw [detectCollisionQnan]
      simp [qnanAdd, qnanFloorDiv, qnanRange]
    · rw [detectCollisionQnan]
      simp [qnanAdd, qnanFloorDiv, qnanRange, List.any_eq_false]
    · rw [detectCollisionQnan]
      simp [qnanAdd, qnanFloorDiv, qnanRange]

theorem detectCollision_error_iff_witness :
    detectCollisionThrows
        (some { x := JSVal.num 5, y := JSVal.num 6,
                width := JSVal.num 7, height := JSVal.num 8 }) true = none ∧
    detectCollisionQnan (some 1) none (some 2) (some 3) (fun _ _ => true) = false :=
  ⟨(detectCollision_error_iff
        (some { x := JSVal.num 5, y := JSVal.num 6,
                width := JSVal.num 7, height := JSVal.num 8 }) true).1.mpr
      ⟨⟨_, rfl, rfl⟩, rfl⟩,
    (detectCollision_error_iff none true).2 (some 1) none (some 2) (some 3)
      (fun _ _ => true) (Or.inr (Or.inl rfl))⟩

/-! ### Construction-time sharing of the tile matrix (C9) -/

theorem buildLevelRef_ok_inv {h : TilesHeap} {d : LevelDocRef} {lvl : LevelRef}
    (hb : buildLevelRef h d = Except.ok lvl) :
    lvl.width = d.width ∧ lvl.height = d.height ∧ lvl.tilesRef = d.tilesRef ∧
    lvl.collisionTileIds = d.collision ∧ lvl.goalX = d.goalX ∧ lvl.goalY = d.goalY ∧
    lvl.collisionGrid = buildGrid (readTiles h d.tilesRef) d.collision d.width d.height ∧
    lvl.goalReached = false := by
  rw [buildLevelRef] at hb
  split at hb
  · exact absurd hb (by simp)
  · cases hb
    exact ⟨rfl, rfl, rfl, rfl, rfl, rfl, rfl, rfl⟩

/-- C9 counterexample: the constructor does not copy `tiles` by value.
With the 1×1 document whose tile matrix lives at heap reference 0, writing
tile ID `7` into the source document's matrix after construction changes
what the Level's `tiles` field reads: `[[0]]` before, `[[7]]` after — the
Level's observable state does not survive source mutation. -/
theorem level_tiles_aliased :
    buildLevelRef sampleHeap heapDoc = Except.ok heapLevel ∧
    levelTilesObs sampleHeap heapLevel = [[0]] ∧
    levelTilesObs (writeTile sampleHeap 0 0 0 7) heapLevel = [[7]] := by
  exact ⟨by rfl, by rfl, by rfl⟩

/-- C9 (amended): construction copies `width` and `height` by value and
derives a fresh boolean `collisionGrid` from the tile matrix as it stands
at construction time, so `isSolid` (which reads only that grid) and
`getGoalPosition` are unaffected by later mutation of the source
document's tiles; but `tiles` itself is retained by reference, so mutating
the source matrix is visible through the Level's `tiles`. -/
theorem level_construction_sharing (h : TilesHeap) (d : LevelDocRef) (lvl : LevelRef)
    (hb : buildLevelRef h d = Except.ok lvl) (ref row col : ℕ) (v : ℤ) :
    lvl.collisionGrid = buildGrid (readTiles h d.tilesRef) d.collision d.width d.height ∧
    (∀ x y : ℕ, x < d.width.toNat → y < d.height.toNat →
        (lvl.collisionGrid.getD y []).getD x false
          = d.collision.contains (((readTiles h d.tilesRef).getD y []).getD x 0)) ∧
    getGoalPositionRef lvl = (d.goalX, d.goalY) ∧
    levelTilesObs (writeTile h ref row col v) lvl
      = readTiles (writeTile h ref row col v) d.tilesRef := by
  obtain ⟨-, -, href, -, hgx, hgy, hgrid, -⟩ := buildLevelRef_ok_inv hb
  refine ⟨hgrid, ?_, ?_, ?_⟩
  · intro x y hx hy
    rw [hgrid]
    exact buildGrid_value _ _ _ _ x y hx hy
  · rw [getGoalPositionRef, hgx, hgy]
  · rw [levelTilesObs, href]

theorem level_construction_sharing_witness :
    buildLevelRef sampleHeap heapDoc = Except.ok heapLevel ∧
    levelTilesObs (writeTile sampleHeap 0 0 0 7) heapLevel
      = readTiles (writeTile sampleHeap 0 0 0 7) heapDoc.tilesRef :=
  ⟨by rfl,
    (level_construction_sharing sampleHeap heapDoc heapLevel (by rfl) 0 0 0 7).2.2.2⟩

end Game2D
